import Mathlib

/-!
A shallow embedding of the interception_py input-injection library
(demo scripts `_left_click.py`, `_get_keyboard.py`, ... and the package module
`src/interception/inputs.py`), together with theorems checking the
natural-language specification of the library against this embedding.

Pure data is embedded as Lean structures; the effectful operations of
`inputs.py` (sending strokes to the driver, sleeping) are embedded as
functions producing a trace of effects together with an optional
exception, mirroring Python's semantics where effects performed before an
exception persist.
-/

namespace InterceptionPy

/-- Modelled from the spec: the device-slot bounds `MAX_KEYBOARD`,
`MAX_MOUSE`, `MAX_DEVICES` come from `consts.py`, which is not under
`src/`; the spec fixes 20 device slots, 10 keyboards and 10 mice. -/
def MAX_KEYBOARD : Nat := 10

/-- Modelled from the spec: see `MAX_KEYBOARD`. -/
def MAX_MOUSE : Nat := 10

/-- Modelled from the spec: see `MAX_KEYBOARD`. -/
def MAX_DEVICES : Nat := MAX_KEYBOARD + MAX_MOUSE

/-- Modelled from the spec: the classification predicate `is_keyboard` is
defined in `interception.py`, which is not under `src/` (only its callers
`_get_keyboard.py`, `_left_click.py` and `inputs.py` are). The spec states
`is_keyboard(id)` iff id is in [1,10]. -/
def is_keyboard (device : Int) : Bool :=
  0 < device && device ≤ (MAX_KEYBOARD : Int)

/-- Modelled from the spec: the classification predicate `is_mouse` is
defined in `interception.py`, which is not under `src/`. The spec states
`is_mouse(id)` iff id is in [11,20]. -/
def is_mouse (device : Int) : Bool :=
  (MAX_KEYBOARD : Int) < device && device ≤ ((MAX_KEYBOARD : Int) + (MAX_MOUSE : Int))

/-- The pixel-to-driver coordinate conversion used by the scripts
(`_left_click.py` lines 34-39, `_get_mouse.py`, `_mouse_scrolling.py`):
`int((0xFFFF * x) / screen_width)` and `int((0xFFFF * y) / screen_height)`.
For nonnegative integers Python's `int(a / b)` truncates toward zero, which
is natural-number division. -/
def to_interception_coordinate (x y screen_width screen_height : Nat) : Nat × Nat :=
  ((0xFFFF * x) / screen_width, (0xFFFF * y) / screen_height)

/-- Floor division of naturals is within one unit of rounded rational
division. -/
theorem natDiv_round_bound (a b : Nat) (hb : 0 < b) :
    |((a / b : Nat) : ℤ) - round ((a : ℚ) / b)| ≤ 1 := by
  have hbQ : (0 : ℚ) < b := by exact_mod_cast hb
  have hle : (a / b : Nat) * b ≤ a := Nat.div_mul_le_self a b
  have hltN : a < (a / b : Nat) * b + b := by
    have h1 : a / b * b + a % b = a := Nat.div_add_mod' a b
    have h2 : a % b < b := Nat.mod_lt a hb
    omega
  have hq_le : ((a / b : Nat) : ℚ) ≤ (a : ℚ) / b := by
    rw [le_div_iff₀ hbQ]
    exact_mod_cast hle
  have hq_lt : (a : ℚ) / b < ((a / b : Nat) : ℚ) + 1 := by
    rw [div_lt_iff₀ hbQ]
    have h3 : (a : ℚ) < ((a / b : Nat) : ℚ) * b + b := by exact_mod_cast hltN
    nlinarith
  have hround : round ((a : ℚ) / b) = ⌊(a : ℚ) / b + 1 / 2⌋ := round_eq _
  have hcast : (((a / b : Nat) : ℤ) : ℚ) = ((a / b : Nat) : ℚ) := Int.cast_natCast _
  have hlow : ((a / b : Nat) : ℤ) ≤ round ((a : ℚ) / b) := by
    rw [hround]
    apply Int.le_floor.mpr
    rw [hcast]
    linarith
  have hhigh : round ((a : ℚ) / b) ≤ ((a / b : Nat) : ℤ) + 1 := by
    rw [hround]
    have h4 : ⌊(a : ℚ) / b + 1 / 2⌋ < ((a / b : Nat) : ℤ) + 2 := by
      apply Int.floor_lt.mpr
      rw [Int.cast_add, hcast]
      norm_num
      linarith
    omega
  rw [abs_le]
  omega

/-! ## Embedding of `src/interception/inputs.py`

Effectful operations are embedded as functions producing the ordered list
of externally visible effects (strokes handed to `interception.send` and
`time.sleep` calls) together with an optional exception. Python semantics:
effects performed before an exception was raised persist. -/

/-- `KeyState` of `_consts.py` (not under `src/`); modelled from the spec:
state enum with KEY_DOWN and KEY_UP. -/
inductive KeyState
  | down
  | up
deriving DecidableEq, Repr

/-- A keyboard stroke: `KeyStroke(code, state, information)` as constructed
by `inputs.py`. -/
structure KeyStroke where
  code : Nat
  state : KeyState
  information : Nat
deriving DecidableEq, Repr

/-- A mouse stroke: `MouseStroke(state, flags, rolling, x, y, information)`
as constructed by `inputs.py` and the demo scripts. -/
structure MouseStroke where
  state : Nat
  flags : Nat
  rolling : Int
  x : Int
  y : Int
  information : Nat
deriving DecidableEq, Repr

/-- The externally visible effects of an `inputs.py` operation, in order. -/
inductive Effect
  | sendKey (device : Int) (s : KeyStroke)
  | sendMouse (device : Int) (m : MouseStroke)
  | sleep (seconds : ℚ)
deriving DecidableEq, Repr

/-- The exceptions of `exceptions.py` that the embedded operations can
raise. -/
inductive InputError
  | driverNotFound
  | unknownKey (key : String)
  | unknownButton (button : String)
deriving DecidableEq, Repr

/-- The outcome of running an effectful Python function: the effects it
performed, and the exception that aborted it, if any. -/
structure PyResult where
  effects : List Effect
  error : Option InputError
deriving DecidableEq, Repr

/-- A normally returning computation with the given effects. -/
def pyOk (effects : List Effect) : PyResult := ⟨effects, none⟩

/-- A computation raising an exception before performing any effect. -/
def pyRaise (e : InputError) : PyResult := ⟨[], some e⟩

/-- Sequencing: run `a`; if it raised, propagate; otherwise run `f` and
prepend the effects of `a`. -/
def PyResult.andThen (a : PyResult) (f : Unit → PyResult) : PyResult :=
  match a.error with
  | some _ => a
  | none =>
      let b := f ()
      ⟨a.effects ++ b.effects, b.error⟩

/-- A Python `for` loop whose body is effectful: run the body on each
element in order, stopping at the first exception. -/
def pyFor (xs : List α) (body : α → PyResult) : PyResult :=
  match xs with
  | [] => pyOk []
  | x :: rest => (body x).andThen fun _ => pyFor rest body

/-- Python `try: body finally: fin`: `fin` always runs after `body`; an
exception raised by `fin` replaces the exception of `body`. -/
def pyTryFinally (body fin : PyResult) : PyResult :=
  match body.error, fin.error with
  | _, some e' => ⟨body.effects ++ fin.effects, some e'⟩
  | some e, none => ⟨body.effects ++ fin.effects, some e⟩
  | none, none => ⟨body.effects ++ fin.effects, none⟩

/-- ASCII lowercasing of one character, as Python `str.lower` acts on the
ASCII key names used here. -/
def pyLowerChar (c : Char) : Char :=
  if 'A' ≤ c ∧ c ≤ 'Z' then Char.ofNat (c.toNat + 32) else c

/-- Python `str.lower` on the ASCII strings used as key and button names. -/
def pyLower (s : String) : String :=
  String.mk (s.data.map pyLowerChar)

/-- Modelled from the spec: `KEYBOARD_MAPPING` lives in `_keycodes.py`,
which is not under `src/`. The spec describes a closed mapping from
lowercase symbolic key names to scancodes with Escape reserved as
scancode 1; the representative entries here use the scancodes of the
`ScanCode` class of `_get_keyboard.py` / `send_key.py`. -/
def KEYBOARD_MAPPING : List (String × Nat) :=
  [("esc", 1), ("1", 2), ("2", 3), ("3", 4), ("4", 5), ("5", 6), ("6", 7),
   ("7", 8), ("8", 9), ("9", 10), ("0", 11), ("-", 12), ("ctrl", 29),
   ("a", 30), ("c", 46), ("b", 48), ("m", 50)]

/-- Membership in `_SUPPORTED_KEYS` (a copy of `KEYBOARD_MAPPING`). -/
def _SUPPORTED_KEYS_contains (key : String) : Bool :=
  KEYBOARD_MAPPING.any fun p => p.1 == key

/-- Lookup `KEYBOARD_MAPPING[key]` (only meaningful when the key is
supported). -/
def KEYBOARD_MAPPING_get (key : String) : Nat :=
  ((KEYBOARD_MAPPING.find? fun p => p.1 == key).map Prod.snd).getD 0

/-- `_SUPPORTED_BUTTONS` of `inputs.py` line 36. -/
def _SUPPORTED_BUTTONS : List String :=
  ["left", "right", "middle", "mouse4", "mouse5"]

/-- `_check_button_exists` of `inputs.py` lines 416-418: raises
`UnknownButtonError` when the button is not in `_SUPPORTED_BUTTONS`. -/
def _check_button_exists (button : String) : PyResult :=
  if button ∈ _SUPPORTED_BUTTONS then pyOk [] else pyRaise (.unknownButton button)

/-- `_check_key_exists` of `inputs.py` lines 420-422: raises
`UnknownKeyError` when the key is not in `_SUPPORTED_KEYS`. -/
def _check_key_exists (key : String) : PyResult :=
  if _SUPPORTED_KEYS_contains key then pyOk [] else pyRaise (.unknownKey key)

/-- `MOUSE_BUTTON_DELAY = 0.03` of `inputs.py` line 30. -/
def MOUSE_BUTTON_DELAY : ℚ := 3 / 100

/-- `KEY_PRESS_DELAY = 0.025` of `inputs.py` line 31. -/
def KEY_PRESS_DELAY : ℚ := 1 / 40

/-- The module-level default keyboard device, `keyboard = 1`. -/
def keyboard : Int := 1

/-- The module-level default mouse device, `mouse = 11`. -/
def mouse : Int := 11

/-- Python `delay or DEFAULT` where `delay` is `None` or a number: `None`
and `0` are falsy and select the default. -/
def pyOr (delay : Option ℚ) (dflt : ℚ) : ℚ :=
  match delay with
  | none => dflt
  | some d => if d = 0 then dflt else d

/-- The `requires_driver` decorator of `inputs.py` lines 40-50: raise
`DriverNotFoundError` when the module-level flag `INTERCEPTION_INSTALLED`
is false, otherwise run the wrapped function. -/
def requires_driver (installed : Bool) (f : Unit → PyResult) : PyResult :=
  if installed then f () else pyRaise .driverNotFound

/-- The module-level initialization of `inputs.py` lines 20-27: attempting
`Interception()` in a `try` block never propagates an exception; the
result is only remembered in the `INTERCEPTION_INSTALLED` flag. Returns
(exception escaping module load, flag value). -/
def module_load (driver_ok : Bool) : Option InputError × Bool :=
  (none, driver_ok)

/-- Modelled from the spec: `MouseState.from_string` lives in `_consts.py`,
which is not under `src/`. It maps a supported button name to its
(button-down, button-up) state pair; the numeric state values follow the
driver convention cited by the demo scripts (left down/up = 1/2, ...). -/
def MouseState_from_string (button : String) : Nat × Nat :=
  if button = "left" then (1, 2)
  else if button = "right" then (4, 8)
  else if button = "middle" then (16, 32)
  else if button = "mouse4" then (64, 128)
  else (256, 512)

/-- Modelled from the spec: the `MouseFlag` values live in `_consts.py`,
not under `src/`; relative moves use flag 0, absolute moves flag 1. -/
def MOUSE_MOVE_RELATIVE : Nat := 0

/-- Modelled from the spec: see `MOUSE_MOVE_RELATIVE`. -/
def MOUSE_MOVE_ABSOLUTE : Nat := 1

/-- Modelled from the spec: the `MouseState.MOUSE_WHEEL` value of
`_consts.py`, not under `src/`. -/
def MOUSE_WHEEL : Nat := 1024

/-- `key_down` of `inputs.py` lines 223-236: lowercase the key, validate
it, send a KEY_DOWN stroke on the default keyboard device, then sleep
`delay or KEY_PRESS_DELAY`. -/
def key_down (installed : Bool) (key : String) (delay : Option ℚ) : PyResult :=
  requires_driver installed fun _ =>
    let k := pyLower key
    (_check_key_exists k).andThen fun _ =>
      let kcode := KEYBOARD_MAPPING_get k
      pyOk [Effect.sendKey keyboard ⟨kcode, KeyState.down, 0⟩,
            Effect.sleep (pyOr delay KEY_PRESS_DELAY)]

/-- `key_up` of `inputs.py` lines 239-248: like `key_down` with a KEY_UP
stroke. -/
def key_up (installed : Bool) (key : String) (delay : Option ℚ) : PyResult :=
  requires_driver installed fun _ =>
    let k := pyLower key
    (_check_key_exists k).andThen fun _ =>
      let kcode := KEYBOARD_MAPPING_get k
      pyOk [Effect.sendKey keyboard ⟨kcode, KeyState.up, 0⟩,
            Effect.sleep (pyOr delay KEY_PRESS_DELAY)]

/-- `mouse_down` of `inputs.py` lines 251-263: validate the button (no
lowercasing), send the button-down stroke on the default mouse device,
then sleep `delay or MOUSE_BUTTON_DELAY`. -/
def mouse_down (installed : Bool) (button : String) (delay : Option ℚ) : PyResult :=
  requires_driver installed fun _ =>
    (_check_button_exists button).andThen fun _ =>
      let down := (MouseState_from_string button).1
      pyOk [Effect.sendMouse mouse ⟨down, MOUSE_MOVE_ABSOLUTE, 0, 0, 0, 0⟩,
            Effect.sleep (pyOr delay MOUSE_BUTTON_DELAY)]

/-- `mouse_up` of `inputs.py` lines 266-274: like `mouse_down` with the
button-up state. -/
def mouse_up (installed : Bool) (button : String) (delay : Option ℚ) : PyResult :=
  requires_driver installed fun _ =>
    (_check_button_exists button).andThen fun _ =>
      let up := (MouseState_from_string button).2
      pyOk [Effect.sendMouse mouse ⟨up, MOUSE_MOVE_ABSOLUTE, 0, 0, 0, 0⟩,
            Effect.sleep (pyOr delay MOUSE_BUTTON_DELAY)]

/-- `move_to` of `inputs.py` lines 53-78 (tuple normalization of the two
call styles elided): convert the pixel coordinate to the driver's
0..65535 space and send one absolute-move stroke. The conversion helper
`_utils.to_interception_coordinate` is not under `src/`; it is embedded by
the formula the demo scripts use (see `to_interception_coordinate`). -/
def move_to (installed : Bool) (screen_width screen_height : Nat) (x y : Nat) : PyResult :=
  requires_driver installed fun _ =>
    let p := to_interception_coordinate x y screen_width screen_height
    pyOk [Effect.sendMouse mouse ⟨0, MOUSE_MOVE_ABSOLUTE, 0, (p.1 : Int), (p.2 : Int), 0⟩]

/-- `move_relative` of `inputs.py` lines 81-99. -/
def move_relative (installed : Bool) (x y : Int) : PyResult :=
  requires_driver installed fun _ =>
    pyOk [Effect.sendMouse mouse ⟨0, MOUSE_MOVE_RELATIVE, 0, x, y, 0⟩]

/-- `mouse_position` of `inputs.py` lines 102-107: not decorated with
`requires_driver`; returns `_utils.get_cursor_pos()` (an OS query, passed
in here as `cursor`). -/
def mouse_position (cursor : Int × Int) : (Int × Int) × Option InputError :=
  (cursor, none)

/-- `scroll` of `inputs.py` lines 209-220: send one wheel stroke with
rolling amount +120 for "up", else -120, then sleep 0.025. -/
def scroll (installed : Bool) (direction : String) : PyResult :=
  requires_driver installed fun _ =>
    let amount : Int := if direction = "up" then 120 else -120
    pyOk [Effect.sendMouse mouse ⟨MOUSE_WHEEL, 0, amount, 0, 0, 0⟩,
          Effect.sleep (1 / 40)]

/-- `click` of `inputs.py` lines 110-145: validate the button, optionally
move to `pos` and sleep `delay`, then `clicks` times press and release the
button, sleeping `interval` after each down/up pair whenever
`clicks > 1`. -/
def click (installed : Bool) (screen_width screen_height : Nat)
    (pos : Option (Nat × Nat)) (button : String) (clicks : Nat)
    (interval delay : ℚ) : PyResult :=
  requires_driver installed fun _ =>
    (_check_button_exists button).andThen fun _ =>
      (match pos with
       | none => pyOk []
       | some (x, y) =>
           (move_to installed screen_width screen_height x y).andThen fun _ =>
             pyOk [Effect.sleep delay]).andThen fun _ =>
        pyFor (List.range clicks) fun _ =>
          (mouse_down installed button none).andThen fun _ =>
            (mouse_up installed button none).andThen fun _ =>
              if clicks > 1 then pyOk [Effect.sleep interval] else pyOk []

/-- `left_click` of `inputs.py` lines 152-155. -/
def left_click (installed : Bool) (clicks : Nat) (interval : ℚ) : PyResult :=
  requires_driver installed fun _ =>
    click installed 0 0 none "left" clicks interval (3 / 10)

/-- `right_click` of `inputs.py` lines 158-161. -/
def right_click (installed : Bool) (clicks : Nat) (interval : ℚ) : PyResult :=
  requires_driver installed fun _ =>
    click installed 0 0 none "right" clicks interval (3 / 10)

/-- `press` of `inputs.py` lines 164-186: lowercase the key, validate it,
then `presses` times run `key_down` and `key_up`, sleeping `interval`
after each press whenever `presses > 1`. -/
def press (installed : Bool) (key : String) (presses : Nat) (interval : ℚ) : PyResult :=
  requires_driver installed fun _ =>
    let k := pyLower key
    (_check_key_exists k).andThen fun _ =>
      pyFor (List.range presses) fun _ =>
        (key_down installed k none).andThen fun _ =>
          (key_up installed k none).andThen fun _ =>
            if presses > 1 then pyOk [Effect.sleep interval] else pyOk []

/-- `write` of `inputs.py` lines 189-206: lowercase the term, then for each
character call `press` (with its defaults) and sleep `interval`. -/
def write (installed : Bool) (term : String) (interval : ℚ) : PyResult :=
  requires_driver installed fun _ =>
    pyFor (pyLower term).data fun c =>
      (press installed (String.mk [c]) 1 (1 / 10)).andThen fun _ =>
        pyOk [Effect.sleep interval]

/-- `hold_key` of `inputs.py` lines 294-308: a context manager that runs
`key_down`, then the enclosed body inside `try`, with `key_up` in the
`finally` clause. If `key_down` raises, neither the body nor the release
runs. -/
def hold_key (installed : Bool) (key : String) (body : PyResult) : PyResult :=
  requires_driver installed fun _ =>
    (key_down installed key none).andThen fun _ =>
      pyTryFinally body (key_up installed key none)

/-- `hold_mouse` of `inputs.py` lines 277-291: like `hold_key` for a mouse
button. -/
def hold_mouse (installed : Bool) (button : String) (body : PyResult) : PyResult :=
  requires_driver installed fun _ =>
    (mouse_down installed button none).andThen fun _ =>
      pyTryFinally body (mouse_up installed button none)

/-! ## Embedding of the capture/listen event loops

Each loop opens its own context, installs a filter, then repeatedly does
wait -> receive -> (check Escape) -> send inside `try`, with
`context._destroy_context()` in the `finally` clause. The driver is
embedded as a stream of events: each `wait`+`receive` round either yields
a stroke on a device or raises (e.g. the handle was closed concurrently).
An exhausted stream models a `wait` that blocks forever: the loop never
exits on that path. -/

/-- One wait/receive round of a keyboard-filtered loop: a key stroke on a
device, or a raised exception. -/
inductive KbdEvent
  | strokeEv (device : Int) (s : KeyStroke)
  | failEv
deriving DecidableEq, Repr

/-- A stroke of either shape, as `receive` returns it. -/
inductive Stroke
  | key (s : KeyStroke)
  | mouse (m : MouseStroke)
deriving DecidableEq, Repr

/-- One wait/receive round of a mouse+keyboard-filtered loop. -/
inductive DevEvent
  | strokeEv (device : Int) (s : Stroke)
  | failEv
deriving DecidableEq, Repr

/-- How a loop run ended: returned a device id, propagated an exception,
or is still blocked in `wait` (stream exhausted). -/
inductive LoopExit
  | returned (device : Int)
  | raised
  | blocked
deriving DecidableEq, Repr

/-- The observable outcome of running a capture/listen loop on a stream:
how it exited, the strokes it re-sent (passed through to the OS) in
order, and whether `context._destroy_context()` ran. -/
structure CtxRun (σ : Type) where
  exit : LoopExit
  sent : List (Int × σ)
  closed : Bool
deriving DecidableEq, Repr

/-- The loop of `capture_keyboard` (`inputs.py` lines 311-333), run on an
event stream. The installed filter is `FILTER_KEY_DOWN` on keyboards, so
every delivered stroke is a key stroke. A stroke with code 1 (Escape)
returns its device without being re-sent; any other stroke is re-sent.
`finally` closes the context on both the return and the raise paths. -/
def capture_keyboard_run : List KbdEvent → CtxRun KeyStroke
  | [] => ⟨.blocked, [], false⟩
  | .failEv :: _ => ⟨.raised, [], true⟩
  | .strokeEv d s :: rest =>
      if s.code = 1 then ⟨.returned d, [], true⟩
      else
        let r := capture_keyboard_run rest
        ⟨r.exit, (d, s) :: r.sent, r.closed⟩

/-- The loop of `listen_to_keyboard` (`inputs.py` lines 364-386); the body
is that of `capture_keyboard_run`, only the installed filter differs
(`FILTER_KEY_ALL`). -/
def listen_to_keyboard_run : List KbdEvent → CtxRun KeyStroke
  | [] => ⟨.blocked, [], false⟩
  | .failEv :: _ => ⟨.raised, [], true⟩
  | .strokeEv d s :: rest =>
      if s.code = 1 then ⟨.returned d, [], true⟩
      else
        let r := listen_to_keyboard_run rest
        ⟨r.exit, (d, s) :: r.sent, r.closed⟩

/-- The loop of `capture_mouse` (`inputs.py` lines 336-361): on
`is_keyboard(device) and stroke.code == 0x01` it returns the device;
otherwise the stroke is re-sent. A mouse-shaped stroke on a keyboard
device makes the `stroke.code` attribute access raise, which the
`finally` clause turns into a closed-context raise. -/
def capture_mouse_run : List DevEvent → CtxRun Stroke
  | [] => ⟨.blocked, [], false⟩
  | .failEv :: _ => ⟨.raised, [], true⟩
  | .strokeEv d s :: rest =>
      match s with
      | .key ks =>
          if is_keyboard d && ks.code == 1 then ⟨.returned d, [], true⟩
          else
            let r := capture_mouse_run rest
            ⟨r.exit, (d, .key ks) :: r.sent, r.closed⟩
      | .mouse ms =>
          if is_keyboard d then ⟨.raised, [], true⟩
          else
            let r := capture_mouse_run rest
            ⟨r.exit, (d, .mouse ms) :: r.sent, r.closed⟩

/-- The loop of `listen_to_mouse` (`inputs.py` lines 389-414); the body is
that of `capture_mouse_run`, only the installed filter differs. -/
def listen_to_mouse_run : List DevEvent → CtxRun Stroke
  | [] => ⟨.blocked, [], false⟩
  | .failEv :: _ => ⟨.raised, [], true⟩
  | .strokeEv d s :: rest =>
      match s with
      | .key ks =>
          if is_keyboard d && ks.code == 1 then ⟨.returned d, [], true⟩
          else
            let r := listen_to_mouse_run rest
            ⟨r.exit, (d, .key ks) :: r.sent, r.closed⟩
      | .mouse ms =>
          if is_keyboard d then ⟨.raised, [], true⟩
          else
            let r := listen_to_mouse_run rest
            ⟨r.exit, (d, .mouse ms) :: r.sent, r.closed⟩

/-- `capture_keyboard` with its `requires_driver` gate. -/
def capture_keyboard (installed : Bool) (evs : List KbdEvent) :
    Except InputError (CtxRun KeyStroke) :=
  if installed then .ok (capture_keyboard_run evs) else .error .driverNotFound

/-- `listen_to_keyboard` with its `requires_driver` gate. -/
def listen_to_keyboard (installed : Bool) (evs : List KbdEvent) :
    Except InputError (CtxRun KeyStroke) :=
  if installed then .ok (listen_to_keyboard_run evs) else .error .driverNotFound

/-- `capture_mouse` with its `requires_driver` gate. -/
def capture_mouse (installed : Bool) (evs : List DevEvent) :
    Except InputError (CtxRun Stroke) :=
  if installed then .ok (capture_mouse_run evs) else .error .driverNotFound

/-- `listen_to_mouse` with its `requires_driver` gate. -/
def listen_to_mouse (installed : Bool) (evs : List DevEvent) :
    Except InputError (CtxRun Stroke) :=
  if installed then .ok (listen_to_mouse_run evs) else .error .driverNotFound

/-- Whether a received stroke triggers the mouse loops' termination test
`is_keyboard(device) and stroke.code == 0x01`. -/
def Stroke.isTermination (device : Int) : Stroke → Bool
  | .key ks => is_keyboard device && ks.code == 1
  | .mouse _ => false

/-- The number of occurrences of one effect in a trace. -/
def countEffect (es : List Effect) (e : Effect) : Nat :=
  (es.filter fun x => decide (x = e)).length

/-- Claim C1: for every integer id, `is_keyboard id` holds iff id is in
[1,10], `is_mouse id` holds iff id is in [11,20], the two predicates are
mutually exclusive and exhaustive over [1,20], and both are false outside
[1,20], in particular at 0. -/
theorem C1_device_classification (id : Int) :
    (is_keyboard id = true ↔ 1 ≤ id ∧ id ≤ 10) ∧
    (is_mouse id = true ↔ 11 ≤ id ∧ id ≤ 20) ∧
    ¬(is_keyboard id = true ∧ is_mouse id = true) ∧
    (1 ≤ id ∧ id ≤ 20 → (is_keyboard id = true ∨ is_mouse id = true)) ∧
    ((id < 1 ∨ 20 < id) → is_keyboard id = false ∧ is_mouse id = false) ∧
    (is_keyboard 0 = false ∧ is_mouse 0 = false) := by
  simp only [is_keyboard, is_mouse, MAX_KEYBOARD, MAX_MOUSE,
    Bool.and_eq_true, decide_eq_true_eq, Bool.and_eq_false_iff,
    decide_eq_false_iff_not, not_and, not_lt, not_le]
  refine ⟨?_, ?_, ?_, ?_, ?_, ?_⟩ <;> simp <;> omega

/-- Concrete instantiation of `C1_device_classification`. -/
theorem C1_device_classification_witness :
    ((1 : Int) ≤ 5 ∧ (5 : Int) ≤ 20) ∧
    (is_keyboard 5 = true ∨ is_mouse 5 = true) := by
  refine ⟨by norm_num, ?_⟩
  exact (C1_device_classification 5).2.2.2.1 (by norm_num)

/-- Claim C8: for pixel coordinates 0 ≤ x < W, 0 ≤ y < H, the driver
coordinates computed by the scripts as `int((0xFFFF * x) / W)` and
`int((0xFFFF * y) / H)` each differ from the reference rounded values
`round(65535*x/W)` and `round(65535*y/H)` by at most 1. -/
theorem C8_coordinate_conversion (x y W H : Nat) (hx : x < W) (hy : y < H) :
    |((to_interception_coordinate x y W H).1 : ℤ) - round ((65535 * (x : ℚ)) / W)| ≤ 1 ∧
    |((to_interception_coordinate x y W H).2 : ℤ) - round ((65535 * (y : ℚ)) / H)| ≤ 1 := by
  have hW : 0 < W := Nat.lt_of_le_of_lt (Nat.zero_le x) hx
  have hH : 0 < H := Nat.lt_of_le_of_lt (Nat.zero_le y) hy
  constructor
  · have h := natDiv_round_bound (0xFFFF * x) W hW
    have hcast : ((0xFFFF * x : Nat) : ℚ) = 65535 * (x : ℚ) := by push_cast; ring
    rw [hcast] at h
    exact h
  · have h := natDiv_round_bound (0xFFFF * y) H hH
    have hcast : ((0xFFFF * y : Nat) : ℚ) = 65535 * (y : ℚ) := by push_cast; ring
    rw [hcast] at h
    exact h

/-- Concrete instantiation of `C8_coordinate_conversion` at the pixel
coordinate (23, 303) from `_left_click.py` on a 1920x1080 screen. -/
theorem C8_coordinate_conversion_witness :
    (23 < 1920 ∧ 303 < 1080) ∧
    |((to_interception_coordinate 23 303 1920 1080).1 : ℤ) -
        round ((65535 * (23 : ℚ)) / 1920)| ≤ 1 := by
  exact ⟨by norm_num, (C8_coordinate_conversion 23 303 1920 1080 (by norm_num) (by norm_num)).1⟩

/-- Claim C4: for every simulated input stream ending in an Escape
KEY_DOWN stroke (scancode 1), `capture_keyboard` terminates, returns the
device id that produced the Escape stroke, processes (re-sends) exactly
the strokes before the Escape and nothing after it, and closes its
context. -/
theorem C4_capture_keyboard_escape (init : List (Int × KeyStroke)) (d : Int)
    (esc : KeyStroke) (h1 : esc.code = 1) (h2 : ∀ p ∈ init, p.2.code ≠ 1) :
    capture_keyboard_run ((init ++ [(d, esc)]).map fun p => KbdEvent.strokeEv p.1 p.2) =
      ⟨LoopExit.returned d, init, true⟩ := by
  induction init with
  | nil => simp [capture_keyboard_run, h1]
  | cons p rest ih =>
      have hp : p.2.code ≠ 1 := h2 p (List.mem_cons_self p rest)
      have hrest := ih fun q hq => h2 q (List.mem_cons_of_mem p hq)
      simp only [List.map_append, List.map_cons, List.map_nil] at hrest
      simp [capture_keyboard_run, hp, hrest]

/-- Concrete instantiation of `C4_capture_keyboard_escape`: one ordinary
stroke on device 1 followed by Escape on device 2. -/
theorem C4_capture_keyboard_escape_witness :
    capture_keyboard_run
        (([((1 : Int), (⟨30, KeyState.down, 0⟩ : KeyStroke))] ++
            [((2 : Int), (⟨1, KeyState.down, 0⟩ : KeyStroke))]).map
          fun p => KbdEvent.strokeEv p.1 p.2) =
      ⟨LoopExit.returned 2, [((1 : Int), (⟨30, KeyState.down, 0⟩ : KeyStroke))], true⟩ :=
  C4_capture_keyboard_escape [((1 : Int), ⟨30, KeyState.down, 0⟩)] 2
    ⟨1, KeyState.down, 0⟩ rfl (by decide)

/-- Helper for C5: the keyboard capture loop closes its context on every
exiting path. -/
theorem capture_keyboard_run_closed (evs : List KbdEvent)
    (h : (capture_keyboard_run evs).exit ≠ LoopExit.blocked) :
    (capture_keyboard_run evs).closed = true := by
  induction evs with
  | nil => simp [capture_keyboard_run] at h
  | cons e rest ih =>
      cases e with
      | failEv => simp [capture_keyboard_run]
      | strokeEv d s =>
          by_cases hc : s.code = 1
          · simp [capture_keyboard_run, hc]
          · simp only [capture_keyboard_run, if_neg hc] at h ⊢
            exact ih h

/-- Helper for C5: the keyboard listen loop closes its context on every
exiting path. -/
theorem listen_to_keyboard_run_closed (evs : List KbdEvent)
    (h : (listen_to_keyboard_run evs).exit ≠ LoopExit.blocked) :
    (listen_to_keyboard_run evs).closed = true := by
  induction evs with
  | nil => simp [listen_to_keyboard_run] at h
  | cons e rest ih =>
      cases e with
      | failEv => simp [listen_to_keyboard_run]
      | strokeEv d s =>
          by_cases hc : s.code = 1
          · simp [listen_to_keyboard_run, hc]
          · simp only [listen_to_keyboard_run, if_neg hc] at h ⊢
            exact ih h

/-- Helper for C5: the mouse capture loop closes its context on every
exiting path. -/
theorem capture_mouse_run_closed (evs : List DevEvent)
    (h : (capture_mouse_run evs).exit ≠ LoopExit.blocked) :
    (capture_mouse_run evs).closed = true := by
  induction evs with
  | nil => simp [capture_mouse_run] at h
  | cons e rest ih =>
      cases e with
      | failEv => simp [capture_mouse_run]
      | strokeEv d s =>
          cases s with
          | key ks =>
              by_cases hc : (is_keyboard d && ks.code == 1) = true
              · simp [capture_mouse_run, hc]
              · simp only [capture_mouse_run, if_neg hc] at h ⊢
                exact ih h
          | mouse ms =>
              by_cases hd : is_keyboard d = true
              · simp [capture_mouse_run, hd]
              · simp only [capture_mouse_run, hd, if_neg, Bool.false_eq_true,
                  if_false] at h ⊢
                exact ih h

/-- Helper for C5: the mouse listen loop closes its context on every
exiting path. -/
theorem listen_to_mouse_run_closed (evs : List DevEvent)
    (h : (listen_to_mouse_run evs).exit ≠ LoopExit.blocked) :
    (listen_to_mouse_run evs).closed = true := by
  induction evs with
  | nil => simp [listen_to_mouse_run] at h
  | cons e rest ih =>
      cases e with
      | failEv => simp [listen_to_mouse_run]
      | strokeEv d s =>
          cases s with
          | key ks =>
              by_cases hc : (is_keyboard d && ks.code == 1) = true
              · simp [listen_to_mouse_run, hc]
              · simp only [listen_to_mouse_run, if_neg hc] at h ⊢
                exact ih h
          | mouse ms =>
              by_cases hd : is_keyboard d = true
              · simp [listen_to_mouse_run, hd]
              · simp only [listen_to_mouse_run, hd, if_neg, Bool.false_eq_true,
                  if_false] at h ⊢
                exact ih h

/-- Claim C5: every capture/listen loop closes the context it created on
every exit path: on normal Escape termination and also when an exception
propagates out of the wait/receive/send body. (An exhausted stream models
a `wait` still blocking, which is not an exit path.) -/
theorem C5_scoped_release (kevs : List KbdEvent) (mevs : List DevEvent) :
    ((capture_keyboard_run kevs).exit ≠ LoopExit.blocked →
      (capture_keyboard_run kevs).closed = true) ∧
    ((listen_to_keyboard_run kevs).exit ≠ LoopExit.blocked →
      (listen_to_keyboard_run kevs).closed = true) ∧
    ((capture_mouse_run mevs).exit ≠ LoopExit.blocked →
      (capture_mouse_run mevs).closed = true) ∧
    ((listen_to_mouse_run mevs).exit ≠ LoopExit.blocked →
      (listen_to_mouse_run mevs).closed = true) :=
  ⟨capture_keyboard_run_closed kevs, listen_to_keyboard_run_closed kevs,
   capture_mouse_run_closed mevs, listen_to_mouse_run_closed mevs⟩

/-- Concrete instantiation of `C5_scoped_release`: an exception path for
the capture loops and an Escape path for the listen loops. -/
theorem C5_scoped_release_witness :
    (capture_keyboard_run [KbdEvent.failEv]).closed = true ∧
    (listen_to_keyboard_run [KbdEvent.strokeEv 3 ⟨1, KeyState.down, 0⟩]).closed = true ∧
    (capture_mouse_run [DevEvent.failEv]).closed = true ∧
    (listen_to_mouse_run [DevEvent.strokeEv 1 (Stroke.key ⟨1, KeyState.down, 0⟩)]).closed = true := by
  have h1 := (C5_scoped_release [KbdEvent.failEv] [DevEvent.failEv]).1 (by decide)
  have h2 := (C5_scoped_release [KbdEvent.strokeEv 3 ⟨1, KeyState.down, 0⟩]
    [DevEvent.strokeEv 1 (Stroke.key ⟨1, KeyState.down, 0⟩)]).2.1 (by decide)
  have h3 := (C5_scoped_release [KbdEvent.failEv] [DevEvent.failEv]).2.2.1 (by decide)
  have h4 := (C5_scoped_release [KbdEvent.strokeEv 3 ⟨1, KeyState.down, 0⟩]
    [DevEvent.strokeEv 1 (Stroke.key ⟨1, KeyState.down, 0⟩)]).2.2.2 (by decide)
  exact ⟨h1, h2, h3, h4⟩

/-- Helper for C9: the strokes re-sent by the keyboard capture loop are
exactly those strictly before the first Escape stroke. -/
theorem capture_keyboard_run_sent (evs : List (Int × KeyStroke)) :
    (capture_keyboard_run (evs.map fun p => KbdEvent.strokeEv p.1 p.2)).sent =
      evs.takeWhile fun q => !(q.2.code == 1) := by
  induction evs with
  | nil => simp [capture_keyboard_run]
  | cons p rest ih =>
      by_cases hc : p.2.code = 1
      · simp [capture_keyboard_run, hc, List.takeWhile_cons]
      · simp [capture_keyboard_run, hc, List.takeWhile_cons, ih]

/-- Helper for C9: same as `capture_keyboard_run_sent` for the listen
loop. -/
theorem listen_to_keyboard_run_sent (evs : List (Int × KeyStroke)) :
    (listen_to_keyboard_run (evs.map fun p => KbdEvent.strokeEv p.1 p.2)).sent =
      evs.takeWhile fun q => !(q.2.code == 1) := by
  induction evs with
  | nil => simp [listen_to_keyboard_run]
  | cons p rest ih =>
      by_cases hc : p.2.code = 1
      · simp [listen_to_keyboard_run, hc, List.takeWhile_cons]
      · simp [listen_to_keyboard_run, hc, List.takeWhile_cons, ih]

/-- Helper for C9: on a well-formed stream (keyboard devices deliver key
strokes), the strokes re-sent by the mouse capture loop are exactly those
strictly before the first terminating Escape stroke. -/
theorem capture_mouse_run_sent (evs : List (Int × Stroke))
    (hwf : ∀ p ∈ evs, is_keyboard p.1 = true → ∃ ks, p.2 = Stroke.key ks) :
    (capture_mouse_run (evs.map fun p => DevEvent.strokeEv p.1 p.2)).sent =
      evs.takeWhile fun q => !(q.2.isTermination q.1) := by
  induction evs with
  | nil => simp [capture_mouse_run]
  | cons p rest ih =>
      obtain ⟨pd, ps⟩ := p
      have hrest := ih fun q hq => hwf q (List.mem_cons_of_mem _ hq)
      cases ps with
      | key ks =>
          by_cases hc : (is_keyboard pd && ks.code == 1) = true
          · simp [capture_mouse_run, hc, List.takeWhile_cons, Stroke.isTermination]
          · simp [capture_mouse_run, hc, List.takeWhile_cons, Stroke.isTermination, hrest]
      | mouse ms =>
          have hd : is_keyboard pd = false := by
            by_contra hcon
            have h := hwf (pd, Stroke.mouse ms) (List.mem_cons_self _ _)
              (by simpa using hcon)
            exact absurd h (by simp)
          simp [capture_mouse_run, hd, List.takeWhile_cons, Stroke.isTermination, hrest]

/-- Helper for C9: same as `capture_mouse_run_sent` for the listen loop. -/
theorem listen_to_mouse_run_sent (evs : List (Int × Stroke))
    (hwf : ∀ p ∈ evs, is_keyboard p.1 = true → ∃ ks, p.2 = Stroke.key ks) :
    (listen_to_mouse_run (evs.map fun p => DevEvent.strokeEv p.1 p.2)).sent =
      evs.takeWhile fun q => !(q.2.isTermination q.1) := by
  induction evs with
  | nil => simp [listen_to_mouse_run]
  | cons p rest ih =>
      obtain ⟨pd, ps⟩ := p
      have hrest := ih fun q hq => hwf q (List.mem_cons_of_mem _ hq)
      cases ps with
      | key ks =>
          by_cases hc : (is_keyboard pd && ks.code == 1) = true
          · simp [listen_to_mouse_run, hc, List.takeWhile_cons, Stroke.isTermination]
          · simp [listen_to_mouse_run, hc, List.takeWhile_cons, Stroke.isTermination, hrest]
      | mouse ms =>
          have hd : is_keyboard pd = false := by
            by_contra hcon
            have h := hwf (pd, Stroke.mouse ms) (List.mem_cons_self _ _)
              (by simpa using hcon)
            exact absurd h (by simp)
          simp [listen_to_mouse_run, hd, List.takeWhile_cons, Stroke.isTermination, hrest]

/-- Claim C9: in every capture/listen loop the terminating Escape stroke
is consumed rather than forwarded: the re-sent strokes are exactly those
strictly before the first terminating Escape stroke, and no re-sent
stroke is a terminating Escape. -/
theorem C9_escape_consumed (kevs : List (Int × KeyStroke)) (mevs : List (Int × Stroke))
    (hwf : ∀ p ∈ mevs, is_keyboard p.1 = true → ∃ ks, p.2 = Stroke.key ks) :
    ((capture_keyboard_run (kevs.map fun p => KbdEvent.strokeEv p.1 p.2)).sent =
        kevs.takeWhile fun q => !(q.2.code == 1)) ∧
    (∀ p ∈ (capture_keyboard_run (kevs.map fun p => KbdEvent.strokeEv p.1 p.2)).sent,
        p.2.code ≠ 1) ∧
    ((listen_to_keyboard_run (kevs.map fun p => KbdEvent.strokeEv p.1 p.2)).sent =
        kevs.takeWhile fun q => !(q.2.code == 1)) ∧
    (∀ p ∈ (listen_to_keyboard_run (kevs.map fun p => KbdEvent.strokeEv p.1 p.2)).sent,
        p.2.code ≠ 1) ∧
    ((capture_mouse_run (mevs.map fun p => DevEvent.strokeEv p.1 p.2)).sent =
        mevs.takeWhile fun q => !(q.2.isTermination q.1)) ∧
    (∀ p ∈ (capture_mouse_run (mevs.map fun p => DevEvent.strokeEv p.1 p.2)).sent,
        p.2.isTermination p.1 = false) ∧
    ((listen_to_mouse_run (mevs.map fun p => DevEvent.strokeEv p.1 p.2)).sent =
        mevs.takeWhile fun q => !(q.2.isTermination q.1)) ∧
    (∀ p ∈ (listen_to_mouse_run (mevs.map fun p => DevEvent.strokeEv p.1 p.2)).sent,
        p.2.isTermination p.1 = false) := by
  have hk := capture_keyboard_run_sent kevs
  have hl := listen_to_keyboard_run_sent kevs
  have hm := capture_mouse_run_sent mevs hwf
  have hn := listen_to_mouse_run_sent mevs hwf
  refine ⟨hk, ?_, hl, ?_, hm, ?_, hn, ?_⟩
  · intro p hp
    rw [hk] at hp
    have := List.mem_takeWhile_imp hp
    simpa using this
  · intro p hp
    rw [hl] at hp
    have := List.mem_takeWhile_imp hp
    simpa using this
  · intro p hp
    rw [hm] at hp
    have := List.mem_takeWhile_imp hp
    simpa using this
  · intro p hp
    rw [hn] at hp
    have := List.mem_takeWhile_imp hp
    simpa using this

/-- Concrete instantiation of `C9_escape_consumed`: a keyboard stream with
a stroke before and after the Escape, and a mouse stream with a click
before the Escape. -/
theorem C9_escape_consumed_witness :
    (capture_keyboard_run
        ([((1 : Int), (⟨30, KeyState.down, 0⟩ : KeyStroke)),
          (2, ⟨1, KeyState.down, 0⟩), (1, ⟨46, KeyState.down, 0⟩)].map
          fun p => KbdEvent.strokeEv p.1 p.2)).sent =
      [((1 : Int), (⟨30, KeyState.down, 0⟩ : KeyStroke)),
        (2, ⟨1, KeyState.down, 0⟩), (1, ⟨46, KeyState.down, 0⟩)].takeWhile
        (fun q => !(q.2.code == 1)) ∧
    (capture_mouse_run
        ([((11 : Int), Stroke.mouse ⟨1, 1, 0, 0, 0, 0⟩),
          (2, Stroke.key ⟨1, KeyState.down, 0⟩)].map
          fun p => DevEvent.strokeEv p.1 p.2)).sent =
      [((11 : Int), Stroke.mouse ⟨1, 1, 0, 0, 0, 0⟩),
        (2, Stroke.key ⟨1, KeyState.down, 0⟩)].takeWhile
        (fun q => !(q.2.isTermination q.1)) := by
  have h := C9_escape_consumed
    [((1 : Int), (⟨30, KeyState.down, 0⟩ : KeyStroke)),
      (2, ⟨1, KeyState.down, 0⟩), (1, ⟨46, KeyState.down, 0⟩)]
    [((11 : Int), Stroke.mouse ⟨1, 1, 0, 0, 0, 0⟩),
      (2, Stroke.key ⟨1, KeyState.down, 0⟩)]
    (by
      intro p hp hkb
      simp only [List.mem_cons, List.mem_singleton] at hp
      rcases hp with h1 | h1 | h1
      · rw [h1] at hkb
        exact absurd hkb (by decide)
      · exact ⟨⟨1, KeyState.down, 0⟩, by rw [h1]⟩
      · exact absurd h1 (by simp))
  exact ⟨h.1, h.2.2.2.2.1⟩

/-- Helper: every key name in the supported mapping is already lowercase,
so Python's lowercasing fixes it. -/
theorem supported_pyLower_fix (k : String) (h : _SUPPORTED_KEYS_contains k = true) :
    pyLower k = k := by
  obtain ⟨p, hp, he⟩ := List.any_eq_true.mp h
  have hk : p.1 = k := by simpa using he
  subst hk
  simp only [KEYBOARD_MAPPING] at hp
  fin_cases hp <;> decide

/-- Helper: a pyFor loop completes without exception iff every body run
does. -/
theorem pyFor_error_none_iff (xs : List α) (body : α → PyResult) :
    (pyFor xs body).error = none ↔ ∀ x ∈ xs, (body x).error = none := by
  induction xs with
  | nil => simp [pyFor, pyOk]
  | cons x rest ih =>
      simp only [pyFor, PyResult.andThen]
      cases hb : (body x).error with
      | some e => simp [hb]
      | none => simp [hb, ih]

/-- Helper: `key_down` on a key whose lowercasing is supported sends the
KEY_DOWN stroke and sleeps. -/
theorem key_down_ok (key : String) (delay : Option ℚ)
    (h : _SUPPORTED_KEYS_contains (pyLower key) = true) :
    key_down true key delay =
      pyOk [Effect.sendKey keyboard ⟨KEYBOARD_MAPPING_get (pyLower key), KeyState.down, 0⟩,
            Effect.sleep (pyOr delay KEY_PRESS_DELAY)] := by
  simp [key_down, requires_driver, _check_key_exists, h, PyResult.andThen, pyOk]

/-- Helper: `key_up` on a key whose lowercasing is supported sends the
KEY_UP stroke and sleeps. -/
theorem key_up_ok (key : String) (delay : Option ℚ)
    (h : _SUPPORTED_KEYS_contains (pyLower key) = true) :
    key_up true key delay =
      pyOk [Effect.sendKey keyboard ⟨KEYBOARD_MAPPING_get (pyLower key), KeyState.up, 0⟩,
            Effect.sleep (pyOr delay KEY_PRESS_DELAY)] := by
  simp [key_up, requires_driver, _check_key_exists, h, PyResult.andThen, pyOk]

/-- Helper: `mouse_down` on a supported button sends the button-down
stroke and sleeps. -/
theorem mouse_down_ok (button : String) (delay : Option ℚ)
    (h : button ∈ _SUPPORTED_BUTTONS) :
    mouse_down true button delay =
      pyOk [Effect.sendMouse mouse
              ⟨(MouseState_from_string button).1, MOUSE_MOVE_ABSOLUTE, 0, 0, 0, 0⟩,
            Effect.sleep (pyOr delay MOUSE_BUTTON_DELAY)] := by
  simp [mouse_down, requires_driver, _check_button_exists, h, PyResult.andThen, pyOk]

/-- Helper: `mouse_up` on a supported button sends the button-up stroke
and sleeps. -/
theorem mouse_up_ok (button : String) (delay : Option ℚ)
    (h : button ∈ _SUPPORTED_BUTTONS) :
    mouse_up true button delay =
      pyOk [Effect.sendMouse mouse
              ⟨(MouseState_from_string button).2, MOUSE_MOVE_ABSOLUTE, 0, 0, 0, 0⟩,
            Effect.sleep (pyOr delay MOUSE_BUTTON_DELAY)] := by
  simp [mouse_up, requires_driver, _check_button_exists, h, PyResult.andThen, pyOk]

/-- Helper: `key_down` on an unsupported key raises with no effect. -/
theorem key_down_unsupported (key : String) (delay : Option ℚ)
    (h : _SUPPORTED_KEYS_contains (pyLower key) = false) :
    key_down true key delay = pyRaise (.unknownKey (pyLower key)) := by
  simp [key_down, requires_driver, _check_key_exists, h, PyResult.andThen, pyRaise]

/-- Helper: `key_up` on an unsupported key raises with no effect. -/
theorem key_up_unsupported (key : String) (delay : Option ℚ)
    (h : _SUPPORTED_KEYS_contains (pyLower key) = false) :
    key_up true key delay = pyRaise (.unknownKey (pyLower key)) := by
  simp [key_up, requires_driver, _check_key_exists, h, PyResult.andThen, pyRaise]

/-- Helper: `mouse_down` on an unsupported button raises with no effect. -/
theorem mouse_down_unsupported (button : String) (delay : Option ℚ)
    (h : button ∉ _SUPPORTED_BUTTONS) :
    mouse_down true button delay = pyRaise (.unknownButton button) := by
  simp [mouse_down, requires_driver, _check_button_exists, h, PyResult.andThen, pyRaise]

/-- Helper: `mouse_up` on an unsupported button raises with no effect. -/
theorem mouse_up_unsupported (button : String) (delay : Option ℚ)
    (h : button ∉ _SUPPORTED_BUTTONS) :
    mouse_up true button delay = pyRaise (.unknownButton button) := by
  simp [mouse_up, requires_driver, _check_button_exists, h, PyResult.andThen, pyRaise]

/-- Helper: `press` on an unsupported key raises with no effect. -/
theorem press_unsupported (key : String) (presses : Nat) (iv : ℚ)
    (h : _SUPPORTED_KEYS_contains (pyLower key) = false) :
    press true key presses iv = pyRaise (.unknownKey (pyLower key)) := by
  simp [press, requires_driver, _check_key_exists, h, PyResult.andThen, pyRaise]

/-- Helper: `click` on an unsupported button raises with no effect (the
button check precedes even the optional move). -/
theorem click_unsupported (W H : Nat) (pos : Option (Nat × Nat)) (button : String)
    (clicks : Nat) (iv dl : ℚ) (h : button ∉ _SUPPORTED_BUTTONS) :
    click true W H pos button clicks iv dl = pyRaise (.unknownButton button) := by
  simp [click, requires_driver, _check_button_exists, h, PyResult.andThen, pyRaise]

/-- Helper: `hold_key` on an unsupported key raises before running its
body or either stroke. -/
theorem hold_key_unsupported (key : String) (body : PyResult)
    (h : _SUPPORTED_KEYS_contains (pyLower key) = false) :
    hold_key true key body = pyRaise (.unknownKey (pyLower key)) := by
  have hkd := key_down_unsupported key none h
  simp [hold_key, requires_driver, hkd, PyResult.andThen, pyRaise]

/-- Helper: `hold_mouse` on an unsupported button raises before running
its body or either stroke. -/
theorem hold_mouse_unsupported (button : String) (body : PyResult)
    (h : button ∉ _SUPPORTED_BUTTONS) :
    hold_mouse true button body = pyRaise (.unknownButton button) := by
  have hmd := mouse_down_unsupported button none h
  simp [hold_mouse, requires_driver, hmd, PyResult.andThen, pyRaise]

/-- Helper: `press` on a key whose lowercasing is supported completes
without exception. -/
theorem press_error_none (key : String) (presses : Nat) (iv : ℚ)
    (h : _SUPPORTED_KEYS_contains (pyLower key) = true) :
    (press true key presses iv).error = none := by
  have hfix : pyLower (pyLower key) = pyLower key := supported_pyLower_fix _ h
  have hlow : _SUPPORTED_KEYS_contains (pyLower (pyLower key)) = true := by rw [hfix]; exact h
  have hkd := key_down_ok (pyLower key) none hlow
  have hku := key_up_ok (pyLower key) none hlow
  simp only [press, requires_driver, if_true, _check_key_exists, h, PyResult.andThen, pyOk]
  rw [pyFor_error_none_iff]
  intro x hx
  simp only [hkd, hku, PyResult.andThen, pyOk]
  split <;> rfl

/-- Helper: one character's body inside `write` completes without
exception iff the character is a supported key. -/
theorem write_body_error_iff (iv : ℚ) (c : Char) :
    (((press true (String.mk [c]) 1 (1 / 10)).andThen fun _ =>
        pyOk [Effect.sleep iv]).error = none) ↔
      _SUPPORTED_KEYS_contains (pyLower (String.mk [c])) = true := by
  by_cases h : _SUPPORTED_KEYS_contains (pyLower (String.mk [c])) = true
  · have hok := press_error_none (String.mk [c]) 1 (1 / 10) h
    simp only [PyResult.andThen, hok]
    simp [h, pyOk]
  · have hbad := press_unsupported (String.mk [c]) 1 (1 / 10) (by simpa using h)
    simp only [PyResult.andThen, hbad, pyRaise]
    simp [h]

/-- Helper: `write` completes without exception iff every character of the
lowercased term is a supported key. -/
theorem write_error_none_iff (term : String) (iv : ℚ) :
    (write true term iv).error = none ↔
      ∀ c ∈ (pyLower term).data,
        _SUPPORTED_KEYS_contains (pyLower (String.mk [c])) = true := by
  simp only [write, requires_driver, if_true]
  rw [pyFor_error_none_iff]
  constructor
  · intro h c hc
    exact (write_body_error_iff iv c).mp (h c hc)
  · intro h c hc
    exact (write_body_error_iff iv c).mpr (h c hc)

/-- Helper: when the first character of the term is unsupported, `write`
raises with no stroke sent at all. -/
theorem write_first_unsupported (c : Char) (cs : List Char) (iv : ℚ)
    (h : _SUPPORTED_KEYS_contains (pyLower (String.mk [pyLowerChar c])) = false) :
    write true (String.mk (c :: cs)) iv =
      pyRaise (.unknownKey (pyLower (String.mk [pyLowerChar c]))) := by
  have hbad := press_unsupported (String.mk [pyLowerChar c]) 1 (1 / 10) h
  have hterm : (pyLower (String.mk (c :: cs))).data = pyLowerChar c :: cs.map pyLowerChar := by
    simp [pyLower]
  unfold write requires_driver
  rw [if_pos rfl, hterm]
  simp only [pyFor]
  rw [hbad]
  simp [PyResult.andThen, pyRaise]

/-- Claim C2 (amended): press, click, key_down, key_up, mouse_down,
mouse_up, hold_key and hold_mouse validate their symbolic name and raise
UnknownKeyError/UnknownButtonError before any stroke is sent, with no
partial execution. `write` validates per character in typing order: it
raises UnknownKeyError iff the lowercased term contains an unsupported
character, and no stroke at all is sent when the first character is
unsupported; strokes for supported characters preceding the first
unsupported one have already been sent (see the counterexample). -/
theorem C2_validation_before_send
    (key btn term : String) (presses clicks : Nat) (iv dl : ℚ) (d : Option ℚ)
    (body : PyResult) (W H : Nat) (pos : Option (Nat × Nat)) (c : Char) (cs : List Char)
    (hk : _SUPPORTED_KEYS_contains (pyLower key) = false)
    (hb : btn ∉ _SUPPORTED_BUTTONS)
    (hc : _SUPPORTED_KEYS_contains (pyLower (String.mk [pyLowerChar c])) = false) :
    press true key presses iv = pyRaise (.unknownKey (pyLower key)) ∧
    key_down true key d = pyRaise (.unknownKey (pyLower key)) ∧
    key_up true key d = pyRaise (.unknownKey (pyLower key)) ∧
    hold_key true key body = pyRaise (.unknownKey (pyLower key)) ∧
    click true W H pos btn clicks iv dl = pyRaise (.unknownButton btn) ∧
    mouse_down true btn d = pyRaise (.unknownButton btn) ∧
    mouse_up true btn d = pyRaise (.unknownButton btn) ∧
    hold_mouse true btn body = pyRaise (.unknownButton btn) ∧
    ((write true term iv).error = none ↔
      ∀ a ∈ (pyLower term).data,
        _SUPPORTED_KEYS_contains (pyLower (String.mk [a])) = true) ∧
    write true (String.mk (c :: cs)) iv =
      pyRaise (.unknownKey (pyLower (String.mk [pyLowerChar c]))) :=
  ⟨press_unsupported key presses iv hk,
   key_down_unsupported key d hk,
   key_up_unsupported key d hk,
   hold_key_unsupported key body hk,
   click_unsupported W H pos btn clicks iv dl hb,
   mouse_down_unsupported btn d hb,
   mouse_up_unsupported btn d hb,
   hold_mouse_unsupported btn body hb,
   write_error_none_iff term iv,
   write_first_unsupported c cs iv hc⟩

/-- Concrete instantiation of `C2_validation_before_send` at the
unsupported key "foo", the case-mismatched button "LEFT" and a term whose
first character is unsupported. -/
theorem C2_validation_before_send_witness :
    press true "foo" 1 (1 / 10) = pyRaise (.unknownKey (pyLower "foo")) ∧
    write true (String.mk ['!', 'a']) (1 / 20) =
      pyRaise (.unknownKey (pyLower (String.mk [pyLowerChar '!']))) := by
  have h := C2_validation_before_send "foo" "LEFT" "ab" 1 1 (1 / 10) (3 / 10) none
    (pyOk []) 0 0 none '!' ['a'] (by decide) (by decide) (by decide)
  exact ⟨h.1, h.2.2.2.2.2.2.2.2.2⟩

/-- Counterexample to claim C2 as stated: `write` on a term containing an
unsupported character does send strokes (those of the supported
characters preceding it) before raising UnknownKeyError. -/
theorem C2_counterexample :
    (write true "a!" (1 / 20)).effects ≠ [] ∧
    (write true "a!" (1 / 20)).error = some (.unknownKey "!") := by
  constructor <;> decide

/-- Claim C10: key-name validation is case-insensitive (the name is
lowercased before lookup, so any casing of a supported key is accepted by
press/key_down/key_up), while button-name validation is case-sensitive:
any name not exactly in the supported button set, such as "LEFT", makes
click/mouse_down/mouse_up/hold_mouse raise UnknownButtonError. -/
theorem C10_key_button_case (key btn : String) (presses clicks : Nat) (iv dl : ℚ)
    (d : Option ℚ) (W H : Nat) (pos : Option (Nat × Nat)) (body : PyResult)
    (hk : _SUPPORTED_KEYS_contains (pyLower key) = true)
    (hb : btn ∉ _SUPPORTED_BUTTONS) :
    (press true key presses iv).error = none ∧
    (key_down true key d).error = none ∧
    (key_up true key d).error = none ∧
    click true W H pos btn clicks iv dl = pyRaise (.unknownButton btn) ∧
    mouse_down true btn d = pyRaise (.unknownButton btn) ∧
    mouse_up true btn d = pyRaise (.unknownButton btn) ∧
    hold_mouse true btn body = pyRaise (.unknownButton btn) ∧
    ("LEFT" : String) ∉ _SUPPORTED_BUTTONS := by
  refine ⟨press_error_none key presses iv hk, ?_, ?_,
    click_unsupported W H pos btn clicks iv dl hb,
    mouse_down_unsupported btn d hb,
    mouse_up_unsupported btn d hb,
    hold_mouse_unsupported btn body hb,
    by decide⟩
  · rw [key_down_ok key d hk]
    rfl
  · rw [key_up_ok key d hk]
    rfl

/-- Concrete instantiation of `C10_key_button_case` at the uppercase key
name "A" (accepted because it is lowercased to the supported "a") and the
uppercase button name "LEFT" (rejected). -/
theorem C10_key_button_case_witness :
    (press true "A" 1 (1 / 10)).error = none ∧
    mouse_down true "LEFT" none = pyRaise (.unknownButton "LEFT") := by
  have h := C10_key_button_case "A" "LEFT" 1 1 (1 / 10) (3 / 10) none 0 0 none
    (pyOk []) (by decide) (by decide)
  exact ⟨h.1, h.2.2.2.2.1⟩

/-- Helper: splitting one occurrence check off an effect count. -/
theorem countEffect_cons (x : Effect) (xs : List Effect) (e : Effect) :
    countEffect (x :: xs) e = countEffect xs e + (if x = e then 1 else 0) := by
  by_cases h : x = e
  · simp [countEffect, List.filter_cons, h]
  · simp [countEffect, List.filter_cons, h]

/-- Helper: the exact effect trace of
`click(button="left", clicks=3, interval=0.1)` from `inputs.py`. -/
theorem click_left_3_trace :
    click true 1920 1080 none "left" 3 (1 / 10) (3 / 10) =
      pyOk [Effect.sendMouse 11 ⟨1, 1, 0, 0, 0, 0⟩, Effect.sleep MOUSE_BUTTON_DELAY,
            Effect.sendMouse 11 ⟨2, 1, 0, 0, 0, 0⟩, Effect.sleep MOUSE_BUTTON_DELAY,
            Effect.sleep (1 / 10),
            Effect.sendMouse 11 ⟨1, 1, 0, 0, 0, 0⟩, Effect.sleep MOUSE_BUTTON_DELAY,
            Effect.sendMouse 11 ⟨2, 1, 0, 0, 0, 0⟩, Effect.sleep MOUSE_BUTTON_DELAY,
            Effect.sleep (1 / 10),
            Effect.sendMouse 11 ⟨1, 1, 0, 0, 0, 0⟩, Effect.sleep MOUSE_BUTTON_DELAY,
            Effect.sendMouse 11 ⟨2, 1, 0, 0, 0, 0⟩, Effect.sleep MOUSE_BUTTON_DELAY,
            Effect.sleep (1 / 10)] := rfl

/-- Counterexample to claim C3 as stated: `click(button="left", clicks=3,
interval=0.1)` produces 3 interval sleeps, not 2 — the interval sleep also
runs after the final down/up pair (the trace ends with it). -/
theorem C3_counterexample :
    countEffect (click true 1920 1080 none "left" 3 (1 / 10) (3 / 10)).effects
        (Effect.sleep (1 / 10)) = 3 ∧
    countEffect (click true 1920 1080 none "left" 3 (1 / 10) (3 / 10)).effects
        (Effect.sleep (1 / 10)) ≠ 2 ∧
    (click true 1920 1080 none "left" 3 (1 / 10) (3 / 10)).effects.getLast? =
      some (Effect.sleep (1 / 10)) := by
  rw [click_left_3_trace]
  generalize hB : (1 / 10 : ℚ) = B
  generalize hA : MOUSE_BUTTON_DELAY = A
  have hab : A ≠ B := by
    rw [← hA, ← hB]
    norm_num [MOUSE_BUTTON_DELAY]
  refine ⟨?_, ?_, rfl⟩ <;> simp [pyOk, countEffect_cons, countEffect, hab]

/-- Claim C3 (amended): `click(button="left", clicks=3, interval=0.1)`
issues exactly 3 left-button down/up stroke pairs, each followed by the
button settle sleep, with a sleep of the 0.1 interval after every pair —
including the final one — so there are 3 interval gaps, not 2; the gap
between consecutive clicks is thus at least 0.1. -/
theorem C3_click_trace :
    click true 1920 1080 none "left" 3 (1 / 10) (3 / 10) =
      pyOk [Effect.sendMouse 11 ⟨1, 1, 0, 0, 0, 0⟩, Effect.sleep MOUSE_BUTTON_DELAY,
            Effect.sendMouse 11 ⟨2, 1, 0, 0, 0, 0⟩, Effect.sleep MOUSE_BUTTON_DELAY,
            Effect.sleep (1 / 10),
            Effect.sendMouse 11 ⟨1, 1, 0, 0, 0, 0⟩, Effect.sleep MOUSE_BUTTON_DELAY,
            Effect.sendMouse 11 ⟨2, 1, 0, 0, 0, 0⟩, Effect.sleep MOUSE_BUTTON_DELAY,
            Effect.sleep (1 / 10),
            Effect.sendMouse 11 ⟨1, 1, 0, 0, 0, 0⟩, Effect.sleep MOUSE_BUTTON_DELAY,
            Effect.sendMouse 11 ⟨2, 1, 0, 0, 0, 0⟩, Effect.sleep MOUSE_BUTTON_DELAY,
            Effect.sleep (1 / 10)] ∧
    countEffect (click true 1920 1080 none "left" 3 (1 / 10) (3 / 10)).effects
        (Effect.sendMouse 11 ⟨1, 1, 0, 0, 0, 0⟩) = 3 ∧
    countEffect (click true 1920 1080 none "left" 3 (1 / 10) (3 / 10)).effects
        (Effect.sendMouse 11 ⟨2, 1, 0, 0, 0, 0⟩) = 3 ∧
    countEffect (click true 1920 1080 none "left" 3 (1 / 10) (3 / 10)).effects
        (Effect.sleep (1 / 10)) = 3 := by
  refine ⟨click_left_3_trace, ?_, ?_, ?_⟩ <;> rw [click_left_3_trace] <;>
    · generalize hB : (1 / 10 : ℚ) = B
      generalize hA : MOUSE_BUTTON_DELAY = A
      have hab : A ≠ B := by
        rw [← hA, ← hB]
        norm_num [MOUSE_BUTTON_DELAY]
      simp [pyOk, countEffect_cons, countEffect, hab]

/-- Claim C6: every call to key_down/key_up/mouse_down/mouse_up ends with
a strictly positive settle sleep: the default (0.025 for keys, 0.03 for
mouse buttons) when no delay is given, a caller-supplied positive delay
when given, and the default again when delay=0 is passed — the delay
cannot be removed. -/
theorem C6_settle_delay (key btn : String) (delay : Option ℚ)
    (hk : _SUPPORTED_KEYS_contains (pyLower key) = true)
    (hb : btn ∈ _SUPPORTED_BUTTONS)
    (hd : ∀ x, delay = some x → 0 ≤ x) :
    0 < KEY_PRESS_DELAY ∧ 0 < MOUSE_BUTTON_DELAY ∧
    0 < pyOr delay KEY_PRESS_DELAY ∧ 0 < pyOr delay MOUSE_BUTTON_DELAY ∧
    (key_down true key delay).effects.getLast? =
      some (Effect.sleep (pyOr delay KEY_PRESS_DELAY)) ∧
    (key_up true key delay).effects.getLast? =
      some (Effect.sleep (pyOr delay KEY_PRESS_DELAY)) ∧
    (mouse_down true btn delay).effects.getLast? =
      some (Effect.sleep (pyOr delay MOUSE_BUTTON_DELAY)) ∧
    (mouse_up true btn delay).effects.getLast? =
      some (Effect.sleep (pyOr delay MOUSE_BUTTON_DELAY)) ∧
    (delay = none → pyOr delay KEY_PRESS_DELAY = KEY_PRESS_DELAY ∧
      pyOr delay MOUSE_BUTTON_DELAY = MOUSE_BUTTON_DELAY) ∧
    (delay = some 0 → pyOr delay KEY_PRESS_DELAY = KEY_PRESS_DELAY ∧
      pyOr delay MOUSE_BUTTON_DELAY = MOUSE_BUTTON_DELAY) ∧
    (∀ x, delay = some x → 0 < x → pyOr delay KEY_PRESS_DELAY = x ∧
      pyOr delay MOUSE_BUTTON_DELAY = x) := by
  have hkp : (0 : ℚ) < KEY_PRESS_DELAY := by norm_num [KEY_PRESS_DELAY]
  have hmb : (0 : ℚ) < MOUSE_BUTTON_DELAY := by norm_num [MOUSE_BUTTON_DELAY]
  have hpos : ∀ dflt : ℚ, 0 < dflt → 0 < pyOr delay dflt := by
    intro dflt hdf
    cases delay with
    | none => simpa [pyOr]
    | some x =>
        have hx := hd x rfl
        by_cases hx0 : x = 0
        · simpa [pyOr, hx0]
        · have hxpos : 0 < x := lt_of_le_of_ne hx (Ne.symm hx0)
          simpa [pyOr, hx0]
  refine ⟨hkp, hmb, hpos _ hkp, hpos _ hmb, ?_, ?_, ?_, ?_, ?_, ?_, ?_⟩
  · rw [key_down_ok key delay hk]
    rfl
  · rw [key_up_ok key delay hk]
    rfl
  · rw [mouse_down_ok btn delay hb]
    rfl
  · rw [mouse_up_ok btn delay hb]
    rfl
  · intro h
    subst h
    exact ⟨rfl, rfl⟩
  · intro h
    subst h
    constructor <;> simp [pyOr]
  · intro x hx hxpos
    subst hx
    constructor <;> simp [pyOr, hxpos.ne']

/-- Concrete instantiation of `C6_settle_delay` at key "A", button "left"
and a caller-supplied delay of 2. -/
theorem C6_settle_delay_witness :
    (0 : ℚ) < pyOr (some 2) KEY_PRESS_DELAY ∧
    (mouse_down true "left" (some 2)).effects.getLast? =
      some (Effect.sleep (pyOr (some 2) MOUSE_BUTTON_DELAY)) := by
  have h := C6_settle_delay "A" "left" (some 2) (by decide) (by decide)
    (by intro x hx; cases hx; norm_num)
  exact ⟨h.2.2.1, h.2.2.2.2.2.2.1⟩

/-- Claim C7: when the driver fails to initialize, module load raises
nothing (the failure is only remembered in the flag); every
driver-dependent operation then raises DriverNotFoundError when invoked,
while `mouse_position` remains usable. -/
theorem C7_lazy_driver_gate (W H x y : Nat) (dx dy : Int) (pos : Option (Nat × Nat))
    (btn key term dir : String) (n : Nat) (iv dl : ℚ) (d : Option ℚ)
    (cursor : Int × Int) (kevs : List KbdEvent) (mevs : List DevEvent)
    (body : PyResult) (driver_ok : Bool) :
    (module_load driver_ok).1 = none ∧
    move_to false W H x y = pyRaise .driverNotFound ∧
    move_relative false dx dy = pyRaise .driverNotFound ∧
    click false W H pos btn n iv dl = pyRaise .driverNotFound ∧
    left_click false n iv = pyRaise .driverNotFound ∧
    right_click false n iv = pyRaise .driverNotFound ∧
    press false key n iv = pyRaise .driverNotFound ∧
    write false term iv = pyRaise .driverNotFound ∧
    scroll false dir = pyRaise .driverNotFound ∧
    key_down false key d = pyRaise .driverNotFound ∧
    key_up false key d = pyRaise .driverNotFound ∧
    mouse_down false btn d = pyRaise .driverNotFound ∧
    mouse_up false btn d = pyRaise .driverNotFound ∧
    hold_key false key body = pyRaise .driverNotFound ∧
    hold_mouse false btn body = pyRaise .driverNotFound ∧
    capture_keyboard false kevs = .error .driverNotFound ∧
    capture_mouse false mevs = .error .driverNotFound ∧
    listen_to_keyboard false kevs = .error .driverNotFound ∧
    listen_to_mouse false mevs = .error .driverNotFound ∧
    mouse_position cursor = (cursor, none) :=
  ⟨rfl, rfl, rfl, rfl, rfl, rfl, rfl, rfl, rfl, rfl, rfl, rfl, rfl, rfl, rfl,
   rfl, rfl, rfl, rfl, rfl⟩

end InterceptionPy
